import Mathlib

/-!
Shallow embedding of the enrollment system of the `suthub-test`
repository (age-group registry, CPF validation, enrollment intake
service and queue worker), together with theorems checking the
natural-language specification against it.

Modelling conventions: Python strings are `String`, integers are `Int`;
MongoDB collections are association lists keyed by document id strings;
wall-clock fields (`created_at`, `updated_at`, `processed_at`) are not
modelled; the digit class of `re.sub(r'\D', '', ...)` is modelled as the
decimal digits 0-9.
-/

/-- `CPFUtils.normalize_cpf` (backend/utils/cpf_utils.py): removes every
non-digit character, i.e. `re.sub(r'\D', '', cpf)`. -/
def normalize_cpf (cpf : String) : String :=
  String.mk (cpf.data.filter Char.isDigit)

/-- Calling `normalize_cpf` on a possibly absent value: `re.sub` raises
`TypeError` when its subject is `None` rather than a string, so an
absent input is an error, not a normalized result. -/
def normalize_cpfOpt : Option String → Except String String
  | none => .error "TypeError"
  | some s => .ok (normalize_cpf s)

/-- Numeric value of a digit character, `int(cpf[j])`. -/
def digitVal (c : Char) : Nat := c.toNat - Char.toNat '0'

/-- The check-digit formula inside `is_valid_cpf`:
`digito = ((soma * 10) % 11) % 10`. -/
def cpf_digito (soma : Nat) : Nat := ((soma * 10) % 11) % 10

/-- The weighted sum inside `is_valid_cpf`:
`soma = sum(int(cpf[j]) * ((i + 1) - j) for j in range(i))`. -/
def cpf_soma (ds : List Char) (i : Nat) : Nat :=
  ((List.range i).map (fun j => digitVal (ds.getD j '0') * ((i + 1) - j))).sum

/-- `CPFUtils.is_valid_cpf` (backend/utils/cpf_utils.py): normalizes,
rejects lengths other than 11 and eleven copies of one character
(`cpf == cpf[0] * 11`), then checks both check digits
(`for i in [9, 10]`). -/
def is_valid_cpf (cpf : String) : Bool :=
  let n := normalize_cpf cpf
  let ds := n.data
  if ds.length ≠ 11 ∨ ds = List.replicate 11 (ds.headD ' ') then false
  else
    [9, 10].all (fun i => digitVal (ds.getD i '0') == cpf_digito (cpf_soma ds i))

/-- Modelled from the spec's words, the reference check-digit rule:
`remainder = (sum*10) mod 11`, expected digit `0` when `remainder ≥ 10`,
else `remainder`. For comparison with `cpf_digito`. -/
def spec_check_digit (soma : Nat) : Nat :=
  let remainder := (soma * 10) % 11
  if remainder ≥ 10 then 0 else remainder

/-- Modelled from the spec's words, the reference CPF validity test: the
normalized string has 11 digits, they are not all identical, the 10th
digit matches the first pass (weights 10 down to 2 over the first 9
digits) and the 11th matches the second pass (weights 11 down to 2 over
the first 10 digits, the first check digit included). For comparison
with `is_valid_cpf`. -/
def spec_cpf_valid (cpf : String) : Bool :=
  let ds := (normalize_cpf cpf).data
  decide (ds.length = 11)
    && !(ds.all (fun c => c == ds.headD ' '))
    && (digitVal (ds.getD 9 '0')
          == spec_check_digit
              (((List.range 9).map (fun j => digitVal (ds.getD j '0') * (10 - j))).sum))
    && (digitVal (ds.getD 10 '0')
          == spec_check_digit
              (((List.range 10).map (fun j => digitVal (ds.getD j '0') * (11 - j))).sum))

lemma cpf_digito_eq_spec (soma : Nat) : cpf_digito soma = spec_check_digit soma := by
  unfold cpf_digito spec_check_digit
  have h : (soma * 10) % 11 < 11 := Nat.mod_lt _ (by norm_num)
  by_cases h10 : (soma * 10) % 11 ≥ 10
  · have he : (soma * 10) % 11 = 10 := by omega
    simp [he]
  · simp only [h10, if_false]
    omega

lemma cpf_soma_nine (ds : List Char) :
    cpf_soma ds 9 = ((List.range 9).map (fun j => digitVal (ds.getD j '0') * (10 - j))).sum :=
  rfl

lemma cpf_soma_ten (ds : List Char) :
    cpf_soma ds 10 = ((List.range 10).map (fun j => digitVal (ds.getD j '0') * (11 - j))).sum :=
  rfl

lemma replicate_iff_all_head (ds : List Char) (h : ds.length = 11) :
    ds = List.replicate 11 (ds.headD ' ') ↔ ds.all (fun c => c == ds.headD ' ') = true := by
  rw [List.eq_replicate_iff]
  simp [List.all_eq_true, h]

lemma filter_replicate_char (n : Nat) (c : Char) (p : Char → Bool) :
    (List.replicate n c).filter p = if p c then List.replicate n c else [] := by
  induction n with
  | zero => simp
  | succ n ih =>
      simp only [List.replicate_succ, List.filter_cons, ih]
      by_cases hp : p c = true
      · simp [hp]
      · simp [hp]

lemma valid_check_eq (ds : List Char) :
    (if ds.length ≠ 11 ∨ ds = List.replicate 11 (ds.headD ' ') then false
     else [9, 10].all (fun i => digitVal (ds.getD i '0') == cpf_digito (cpf_soma ds i)))
    = (decide (ds.length = 11)
        && !(ds.all (fun c => c == ds.headD ' '))
        && (digitVal (ds.getD 9 '0')
              == spec_check_digit
                  (((List.range 9).map (fun j => digitVal (ds.getD j '0') * (10 - j))).sum))
        && (digitVal (ds.getD 10 '0')
              == spec_check_digit
                  (((List.range 10).map (fun j => digitVal (ds.getD j '0') * (11 - j))).sum))) := by
  by_cases hlen : ds.length = 11
  · have hd : decide (ds.length = 11) = true := by simp [hlen]
    by_cases hr : ds = List.replicate 11 (ds.headD ' ')
    · have hall : (ds.all fun c => c == ds.headD ' ') = true :=
        (replicate_iff_all_head ds hlen).mp hr
      rw [if_pos (Or.inr hr), hall]
      simp
    · have hall : (ds.all fun c => c == ds.headD ' ') = false := by
        cases h : (ds.all fun c => c == ds.headD ' ') with
        | false => rfl
        | true => exact absurd ((replicate_iff_all_head ds hlen).mpr h) hr
      rw [if_neg (not_or.mpr ⟨fun h => h hlen, hr⟩), hall, hd]
      simp only [List.all_cons, List.all_nil, Bool.and_true, Bool.not_false,
        Bool.true_and, cpf_digito_eq_spec, cpf_soma_nine, cpf_soma_ten,
        Bool.and_assoc]
  · have hd : decide (ds.length = 11) = false := by simp [hlen]
    rw [if_pos (Or.inl hlen), hd]
    simp

/-- C4: `is_valid_cpf` agrees with the spec's modulo-11 reference
algorithm on every input; every 11-character string of one repeated
character (in particular one repeated digit) is rejected; the normalized
CPF `09702414458` is accepted and `12345678900` is rejected. -/
theorem cpf_isValid_reference :
    (∀ s : String, is_valid_cpf s = spec_cpf_valid s)
    ∧ (∀ c : Char, is_valid_cpf (String.mk (List.replicate 11 c)) = false)
    ∧ is_valid_cpf "09702414458" = true
    ∧ is_valid_cpf "12345678900" = false := by
  refine ⟨?_, ?_, by decide, by decide⟩
  · intro s
    exact valid_check_eq (normalize_cpf s).data
  · intro c
    have hdata : (normalize_cpf (String.mk (List.replicate 11 c))).data
        = (List.replicate 11 c).filter Char.isDigit := rfl
    simp only [is_valid_cpf, hdata, filter_replicate_char]
    by_cases hc : c.isDigit = true
    · simp [hc, List.replicate_succ]
    · simp [hc]

/-- C9 counterexample: the claim says an absent (null) input normalizes
to the empty string, but `re.sub` raises `TypeError` on `None`, so
normalization of an absent input does not return the empty string. -/
theorem normalize_absent_raises : ¬ (normalize_cpfOpt none = .ok "") := by
  simp [normalize_cpfOpt]

/-- C9 (amended): `normalize_cpf` keeps exactly the digit characters of
its input, in order (its output is an all-digit sublist of the input
preserving digit multiplicities, with every non-digit dropped), the
empty string normalizes to the empty string, and it is pure and total
over strings; an absent (null) input, however, raises `TypeError`
instead of normalizing to the empty string. -/
theorem normalize_strips_nondigits :
    (∀ s : String,
      ((normalize_cpf s).data.all Char.isDigit = true)
      ∧ (normalize_cpf s).data.Sublist s.data
      ∧ ∀ c : Char,
          (normalize_cpf s).data.count c = if c.isDigit then s.data.count c else 0)
    ∧ normalize_cpf "" = ""
    ∧ normalize_cpfOpt none = .error "TypeError" := by
  refine ⟨?_, rfl, rfl⟩
  intro s
  refine ⟨?_, List.filter_sublist _, ?_⟩
  · rw [List.all_eq_true]
    intro c hc
    exact List.of_mem_filter hc
  · intro c
    by_cases hc : c.isDigit = true
    · rw [if_pos hc]
      exact List.count_filter hc
    · rw [if_neg hc]
      refine List.count_eq_zero.mpr (fun hmem => ?_)
      exact hc (List.of_mem_filter hmem)

/-- A stored age-group document of the `age_groups` collection. -/
structure AgeGroup where
  id : String
  name : String
  min_age : Int
  max_age : Int
  deriving DecidableEq, Repr

/-- A JSON payload value, as far as the handlers inspect one
(`isinstance(x, int)`). -/
inductive PyVal where
  | pint (n : Int)
  | pstr (s : String)
  | pother
  deriving DecidableEq, Repr

/-- An HTTP error response (`HTTPException(status_code, detail)`). -/
structure HErr where
  status_code : Nat
  detail : String
  deriving DecidableEq, Repr

/-- Request body of `POST /api/v1/age-groups`, fields read with
`payload.get(...)`. -/
structure GroupPayload where
  name : Option String
  min_age : Option PyVal
  max_age : Option PyVal
  deriving DecidableEq, Repr

/-- A hexadecimal character, the alphabet of `ObjectId` strings. -/
def isHexChar (c : Char) : Bool :=
  c.isDigit || (decide ('a' ≤ c) && decide (c ≤ 'f')) || (decide ('A' ≤ c) && decide (c ≤ 'F'))

/-- `bson.ObjectId` validity for a string: exactly 24 hexadecimal
characters (`ObjectId.is_valid`, and what the `ObjectId` constructor
accepts without raising). -/
def objectIdValid (s : String) : Bool :=
  s.length == 24 && s.data.all isHexChar

/-- The closed-interval overlap test of `create_age_group`'s `find_one`
query: `existing.min_age <= new.max_age AND existing.max_age >=
new.min_age`. -/
def overlapsB (g : AgeGroup) (minA maxA : Int) : Bool :=
  decide (g.min_age ≤ maxA) && decide (g.max_age ≥ minA)

/-- `create_age_group` (backend/api/app.py): missing-field check,
integer type check, range check, overlap query, then insert of the new
document; `newId` stands for the `ObjectId` generated by `insert_one`. -/
def create_age_group (newId : String) (payload : GroupPayload) (gs : List AgeGroup) :
    Except HErr (AgeGroup × List AgeGroup) :=
  match payload.name, payload.min_age, payload.max_age with
  | some name, some minV, some maxV =>
    match minV, maxV with
    | .pint min_age, .pint max_age =>
      if min_age > max_age then
        .error ⟨400, "min_age não pode ser maior que max_age"⟩
      else if gs.any (fun g => overlapsB g min_age max_age) then
        .error ⟨409, "Intervalo de idade sobrepõe grupo existente"⟩
      else
        let doc : AgeGroup := ⟨newId, name, min_age, max_age⟩
        .ok (doc, gs ++ [doc])
    | _, _ => .error ⟨400, "min_age e max_age devem ser inteiros"⟩
  | _, _, _ => .error ⟨400, "Campos obrigatórios: name, min_age, max_age"⟩

/-- `delete_age_group` (backend/api/app.py): 400 for an invalid
`ObjectId` string, 404 when `delete_one` matched nothing, otherwise the
single matching document is removed. -/
def delete_age_group (group_id : String) (gs : List AgeGroup) :
    Except HErr (List AgeGroup) :=
  if ¬ objectIdValid group_id then .error ⟨400, "group_id inválido"⟩
  else if gs.any (fun g => g.id == group_id) then
    .ok (gs.eraseP (fun g => g.id == group_id))
  else .error ⟨404, "Grupo não encontrado"⟩

/-- The registry invariant: the closed intervals of any two stored age
groups do not intersect. -/
def registryInvariant (gs : List AgeGroup) : Prop :=
  gs.Pairwise (fun a b => ¬ (a.min_age ≤ b.max_age ∧ a.max_age ≥ b.min_age))

/-- C1: the closed intervals of registered age groups never intersect:
`create_age_group` refuses with 409 any payload whose interval
intersects an existing group's, every successful registration and every
deletion preserves pairwise non-intersection, and under the invariant
any two distinct stored groups do not intersect. -/
theorem registry_nonoverlap_invariant :
    (∀ newId name minA maxA gs, minA ≤ maxA →
        (∃ g, g ∈ gs ∧ g.min_age ≤ maxA ∧ g.max_age ≥ minA) →
        create_age_group newId ⟨some name, some (.pint minA), some (.pint maxA)⟩ gs
          = .error ⟨409, "Intervalo de idade sobrepõe grupo existente"⟩)
    ∧ (∀ newId p gs g gs', registryInvariant gs →
        create_age_group newId p gs = .ok (g, gs') → registryInvariant gs')
    ∧ (∀ gid gs gs', registryInvariant gs →
        delete_age_group gid gs = .ok gs' → registryInvariant gs')
    ∧ (∀ gs, registryInvariant gs → ∀ a ∈ gs, ∀ b ∈ gs, a ≠ b →
        ¬ (a.min_age ≤ b.max_age ∧ a.max_age ≥ b.min_age)) := by
  refine ⟨?_, ?_, ?_, ?_⟩
  · rintro newId name minA maxA gs hle ⟨g, hg, h1, h2⟩
    have hany : gs.any (fun g => overlapsB g minA maxA) = true := by
      rw [List.any_eq_true]
      exact ⟨g, hg, by simp [overlapsB, h1, h2]⟩
    simp only [create_age_group]
    rw [if_neg (by omega), if_pos hany]
  · intro newId p gs g gs' hinv hok
    obtain ⟨pn, pmin, pmax⟩ := p
    cases pn with
    | none => simp [create_age_group] at hok
    | some name =>
      cases pmin with
      | none => simp [create_age_group] at hok
      | some minV =>
        cases pmax with
        | none => simp [create_age_group] at hok
        | some maxV =>
          cases minV with
          | pstr s => simp [create_age_group] at hok
          | pother => simp [create_age_group] at hok
          | pint minA =>
            cases maxV with
            | pstr s => simp [create_age_group] at hok
            | pother => simp [create_age_group] at hok
            | pint maxA =>
              simp only [create_age_group] at hok
              by_cases hgt : minA > maxA
              · rw [if_pos hgt] at hok
                exact absurd hok (by simp)
              · rw [if_neg hgt] at hok
                by_cases hany : gs.any (fun g => overlapsB g minA maxA) = true
                · rw [if_pos hany] at hok
                  exact absurd hok (by simp)
                · rw [if_neg hany] at hok
                  simp only [Except.ok.injEq, Prod.mk.injEq] at hok
                  obtain ⟨hg, hgs⟩ := hok
                  subst hgs
                  refine List.pairwise_append.mpr ⟨hinv, List.pairwise_singleton _ _, ?_⟩
                  intro a ha b hb
                  rw [List.mem_singleton] at hb
                  subst hb
                  intro hcon
                  apply hany
                  rw [List.any_eq_true]
                  exact ⟨a, ha, by simp [overlapsB]; exact ⟨hcon.1, hcon.2⟩⟩
  · intro gid gs gs' hinv hok
    simp only [delete_age_group] at hok
    by_cases hv : objectIdValid gid = true
    · rw [if_neg (by simp [hv])] at hok
      by_cases hany : gs.any (fun g => g.id == gid) = true
      · rw [if_pos hany] at hok
        simp only [Except.ok.injEq] at hok
        subst hok
        exact List.Pairwise.sublist (List.eraseP_sublist gs) hinv
      · rw [if_neg hany] at hok
        exact absurd hok (by simp)
    · rw [if_pos (by simp [hv])] at hok
      exact absurd hok (by simp)
  · intro gs hinv a ha b hb hne
    have hsym : Symmetric (fun a b : AgeGroup =>
        ¬ (a.min_age ≤ b.max_age ∧ a.max_age ≥ b.min_age)) := by
      intro x y hxy hcon
      exact hxy ⟨hcon.2, hcon.1⟩
    exact hinv.forall hsym ha hb hne

/-- C1 witness: starting from a registry holding one group, registering
a disjoint group succeeds and the two-group registry still satisfies
pairwise non-intersection. -/
theorem registry_nonoverlap_invariant_witness :
    registryInvariant
      [⟨"0123456789abcdef01234567", "Child", 0, 17⟩,
       ⟨"0123456789abcdef01234568", "Adult", 18, 60⟩] :=
  registry_nonoverlap_invariant.2.1 "0123456789abcdef01234568"
    ⟨some "Adult", some (.pint 18), some (.pint 60)⟩
    [⟨"0123456789abcdef01234567", "Child", 0, 17⟩]
    ⟨"0123456789abcdef01234568", "Adult", 18, 60⟩
    [⟨"0123456789abcdef01234567", "Child", 0, 17⟩,
     ⟨"0123456789abcdef01234568", "Adult", 18, 60⟩]
    (by simp [registryInvariant]) rfl

/-- C8: `create_age_group` fails with 400 when `min_age > max_age`, with
409 when the closed interval intersects an existing group's, and
otherwise persists and returns the new group; a payload with an
overlapping range but a missing name yields 400, not 409, because the
missing-field check precedes the overlap check. -/
theorem age_group_register_errors :
    (∀ newId name minA maxA gs, minA > maxA →
        create_age_group newId ⟨some name, some (.pint minA), some (.pint maxA)⟩ gs
          = .error ⟨400, "min_age não pode ser maior que max_age"⟩)
    ∧ (∀ newId name minA maxA gs g, minA ≤ maxA → g ∈ gs →
        g.min_age ≤ maxA → g.max_age ≥ minA →
        create_age_group newId ⟨some name, some (.pint minA), some (.pint maxA)⟩ gs
          = .error ⟨409, "Intervalo de idade sobrepõe grupo existente"⟩)
    ∧ (∀ newId name minA maxA gs, minA ≤ maxA →
        (∀ g ∈ gs, ¬ (g.min_age ≤ maxA ∧ g.max_age ≥ minA)) →
        create_age_group newId ⟨some name, some (.pint minA), some (.pint maxA)⟩ gs
          = .ok (⟨newId, name, minA, maxA⟩, gs ++ [⟨newId, name, minA, maxA⟩]))
    ∧ (∀ newId minV maxV gs,
        create_age_group newId ⟨none, minV, maxV⟩ gs
          = .error ⟨400, "Campos obrigatórios: name, min_age, max_age"⟩) := by
  refine ⟨?_, ?_, ?_, ?_⟩
  · intro newId name minA maxA gs hgt
    simp only [create_age_group]
    rw [if_pos hgt]
  · intro newId name minA maxA gs g hle hg h1 h2
    exact registry_nonoverlap_invariant.1 newId name minA maxA gs hle ⟨g, hg, h1, h2⟩
  · intro newId name minA maxA gs hle hno
    have hany : gs.any (fun g => overlapsB g minA maxA) = false := by
      rw [List.any_eq_false]
      intro g hg
      simp only [overlapsB, Bool.and_eq_true, decide_eq_true_eq]
      exact fun hcon => hno g hg ⟨hcon.1, hcon.2⟩
    simp only [create_age_group]
    rw [if_neg (by omega), if_neg (by simp [hany])]
  · intro newId minV maxV gs
    simp [create_age_group]

/-- C8 witness: the four branches at concrete inputs — inverted range,
overlapping range, a successful disjoint registration, and a missing
name with an overlapping range (400, not 409). -/
theorem age_group_register_errors_witness :
    create_age_group "0123456789abcdef01234567"
        ⟨some "X", some (.pint 30), some (.pint 10)⟩ []
      = .error ⟨400, "min_age não pode ser maior que max_age"⟩
    ∧ create_age_group "0123456789abcdef01234568"
        ⟨some "X", some (.pint 1), some (.pint 8)⟩
        [⟨"0123456789abcdef01234567", "Jovem", 0, 9⟩]
      = .error ⟨409, "Intervalo de idade sobrepõe grupo existente"⟩
    ∧ create_age_group "0123456789abcdef01234568"
        ⟨some "Adult", some (.pint 18), some (.pint 60)⟩
        [⟨"0123456789abcdef01234567", "Jovem", 0, 9⟩]
      = .ok (⟨"0123456789abcdef01234568", "Adult", 18, 60⟩,
             [⟨"0123456789abcdef01234567", "Jovem", 0, 9⟩,
              ⟨"0123456789abcdef01234568", "Adult", 18, 60⟩])
    ∧ create_age_group "0123456789abcdef01234569"
        ⟨none, some (.pint 10), some (.pint 20)⟩
        [⟨"0123456789abcdef01234567", "Jovem", 0, 9⟩]
      = .error ⟨400, "Campos obrigatórios: name, min_age, max_age"⟩ :=
  ⟨age_group_register_errors.1 _ "X" 30 10 [] (by decide),
   age_group_register_errors.2.1 _ "X" 1 8 _ ⟨"0123456789abcdef01234567", "Jovem", 0, 9⟩
     (by decide) (by decide) (by decide) (by decide),
   age_group_register_errors.2.2.1 _ "Adult" 18 60 _ (by decide) (by decide),
   age_group_register_errors.2.2.2 _ _ _ _⟩

/-- Enrollment status values stored in the `status` field. -/
inductive EStatus where
  | queued
  | processing
  | completed
  | rejected
  | failed
  deriving DecidableEq, Repr

/-- An enrollment document of the `enrollments` collection (timestamps
not modelled; `status` is an `Option` because the worker reads it with
`enroll.get("status")` and treats an unset status like `None`). -/
structure EnrollmentDoc where
  name : String
  age : Int
  cpf : String
  status : Option EStatus
  reason : Option String
  user_id : Option Nat
  deriving DecidableEq, Repr

/-- The queue message the intake service publishes
(`{enrollment_id, name, age, cpf, created_at}`, timestamp dropped). -/
structure QueueMsg where
  enrollment_id : String
  name : String
  age : Int
  cpf : String
  deriving DecidableEq, Repr

/-- The stores the intake service touches: the `enrollments` collection
and the Redis list behind `rpush`. -/
structure IntakeState where
  enrollments : List (String × EnrollmentDoc)
  queue : List QueueMsg
  deriving DecidableEq, Repr

/-- Whether the Redis `rpush` of the intake service succeeds. -/
structure IntakeEnv where
  enqueueOk : Bool
  deriving DecidableEq, Repr

/-- Request body of `POST /api/v1/enrollments`, fields read with
`payload.get(...)`. -/
structure EnrollPayload where
  name : Option String
  age : Option PyVal
  cpf : Option String
  deriving DecidableEq, Repr

/-- The success response of `request_enrollment`. -/
structure IntakeResult where
  enrollment_id : String
  status : String
  deriving DecidableEq, Repr

/-- `update_one` on an association list: rewrites the first document
with the given id, if any. -/
def updateFirst (eid : String) (f : EnrollmentDoc → EnrollmentDoc) :
    List (String × EnrollmentDoc) → List (String × EnrollmentDoc)
  | [] => []
  | p :: rest =>
      if p.1 == eid then (p.1, f p.2) :: rest else p :: updateFirst eid f rest

/-- `EnrollmentService.request_enrollment`
(backend/api/services/enrollment_service.py): presence check, integer
age check, CPF normalization and validation, age-group lookup, persist
with status `queued`, then enqueue; on enqueue failure the just-created
record is marked `failed` with reason `enqueue_error` and the call fails
with 500.  `newId` stands for the `ObjectId` generated by `insert_one`;
the pair returns the HTTP outcome together with the resulting state. -/
def request_enrollment (env : IntakeEnv) (newId : String) (groups : List AgeGroup)
    (payload : EnrollPayload) (st : IntakeState) :
    Except HErr IntakeResult × IntakeState :=
  match payload.name, payload.age, payload.cpf with
  | some name, some ageV, some cpf =>
    match ageV with
    | .pint age =>
      let cpf_norm := normalize_cpf cpf
      if ¬ is_valid_cpf cpf_norm then
        (.error ⟨422, "CPF inválido (digitos verificadores ou formato)"⟩, st)
      else if groups.any (fun g => decide (g.min_age ≤ age) && decide (g.max_age ≥ age)) then
        let doc : EnrollmentDoc := ⟨name, age, cpf_norm, some .queued, none, none⟩
        let st1 : IntakeState := { st with enrollments := st.enrollments ++ [(newId, doc)] }
        if env.enqueueOk then
          (.ok ⟨newId, "queued"⟩,
           { st1 with queue := st1.queue ++ [⟨newId, name, age, cpf_norm⟩] })
        else
          let markFail : EnrollmentDoc → EnrollmentDoc := fun d =>
            { d with status := some .failed, reason := some "enqueue_error" }
          (.error ⟨500, "Erro ao enfileirar a solicitação"⟩,
           { st1 with enrollments := updateFirst newId markFail st1.enrollments })
      else
        (.error ⟨422, "Nenhuma faixa etária encontrada para a idade informada"⟩, st)
    | _ => (.error ⟨400, "age deve ser inteiro"⟩, st)
  | _, _, _ => (.error ⟨400, "Campos obrigatórios: name, age, cpf"⟩, st)

/-- `get_enrollment_status` (backend/api/app.py): 400 when the path
identifier is not a valid `ObjectId` string, 404 when no document
matches, otherwise the record. -/
def get_enrollment_status (enrollment_id : String)
    (enrollments : List (String × EnrollmentDoc)) : Except HErr EnrollmentDoc :=
  if ¬ objectIdValid enrollment_id then .error ⟨400, "enrollment_id inválido"⟩
  else
    match enrollments.find? (fun p => p.1 == enrollment_id) with
    | none => .error ⟨404, "Inscrição não encontrada"⟩
    | some p => .ok p.2

lemma find?_append_none {α : Type} (l₁ l₂ : List α) (p : α → Bool)
    (h : l₁.find? p = none) : (l₁ ++ l₂).find? p = l₂.find? p := by
  induction l₁ with
  | nil => simp
  | cons a l ih =>
      cases hpa : p a with
      | true =>
          rw [List.find?_cons_of_pos _ hpa] at h
          exact absurd h (by simp)
      | false =>
          rw [List.find?_cons_of_neg _ (by simp [hpa])] at h
          simp only [List.cons_append]
          rw [List.find?_cons_of_neg _ (by simp [hpa])]
          exact ih h

lemma find?_append_self (l : List (String × EnrollmentDoc)) (newId : String)
    (d0 : EnrollmentDoc) (h : l.find? (fun p => p.1 == newId) = none) :
    (l ++ [(newId, d0)]).find? (fun p => p.1 == newId) = some (newId, d0) := by
  rw [find?_append_none _ _ _ h]
  simp [List.find?]

lemma updateFirst_append_of_none (l : List (String × EnrollmentDoc)) (eid : String)
    (f : EnrollmentDoc → EnrollmentDoc) (d : EnrollmentDoc)
    (h : l.find? (fun q => q.1 == eid) = none) :
    updateFirst eid f (l ++ [(eid, d)]) = l ++ [(eid, f d)] := by
  induction l with
  | nil => simp [updateFirst]
  | cons a l ih =>
      rw [List.find?_eq_none] at h
      cases hpa : (a.1 == eid) with
      | true =>
          exact absurd hpa (by simpa using h a (List.mem_cons_self a l))
      | false =>
          have h' : l.find? (fun q => q.1 == eid) = none :=
            List.find?_eq_none.mpr (fun x hx => h x (List.mem_cons_of_mem a hx))
          have hgoal : updateFirst eid f ((a :: l) ++ [(eid, d)])
              = a :: updateFirst eid f (l ++ [(eid, d)]) := by
            simp only [List.cons_append, updateFirst, List.append_eq]
            rw [if_neg (by simp [hpa])]
          rw [hgoal, ih h', List.cons_append]

/-- C10: both `GET /enrollments/{id}` and `DELETE /age-groups/{id}` fail
with 400 for a path identifier that is not a valid `ObjectId` string,
and their 404 answers occur only for well-formed identifiers that match
no record. -/
theorem invalid_objectid_yields_400 :
    (∀ eid es, objectIdValid eid = false →
        get_enrollment_status eid es = .error ⟨400, "enrollment_id inválido"⟩)
    ∧ (∀ gid gs, objectIdValid gid = false →
        delete_age_group gid gs = .error ⟨400, "group_id inválido"⟩)
    ∧ (∀ eid es err, get_enrollment_status eid es = .error err →
        err.status_code = 404 →
        objectIdValid eid = true ∧ es.find? (fun p => p.1 == eid) = none)
    ∧ (∀ gid gs err, delete_age_group gid gs = .error err →
        err.status_code = 404 →
        objectIdValid gid = true ∧ ∀ g ∈ gs, (g.id == gid) = false) := by
  refine ⟨?_, ?_, ?_, ?_⟩
  · intro eid es hv
    simp [get_enrollment_status, hv]
  · intro gid gs hv
    simp [delete_age_group, hv]
  · intro eid es err h h404
    by_cases hv : objectIdValid eid = true
    · refine ⟨hv, ?_⟩
      simp only [get_enrollment_status, hv, not_true, if_false] at h
      cases hf : es.find? (fun p => p.1 == eid) with
      | none => rfl
      | some p =>
          rw [hf] at h
          exact absurd h (by simp)
    · have hvf : objectIdValid eid = false := by simpa using hv
      have he : get_enrollment_status eid es = .error ⟨400, "enrollment_id inválido"⟩ := by
        simp [get_enrollment_status, hvf]
      rw [he] at h
      simp only [Except.error.injEq] at h
      rw [← h] at h404
      exact absurd h404 (by simp)
  · intro gid gs err h h404
    by_cases hv : objectIdValid gid = true
    · refine ⟨hv, ?_⟩
      simp only [delete_age_group, hv, not_true, if_false] at h
      by_cases hany : gs.any (fun g => g.id == gid) = true
      · rw [if_pos hany] at h
        exact absurd h (by simp)
      · rw [List.any_eq_true] at hany
        push_neg at hany
        intro g hg
        simpa using hany g hg
    · have hvf : objectIdValid gid = false := by simpa using hv
      have he : delete_age_group gid gs = .error ⟨400, "group_id inválido"⟩ := by
        simp [delete_age_group, hvf]
      rw [he] at h
      simp only [Except.error.injEq] at h
      rw [← h] at h404
      exact absurd h404 (by simp)

/-- C10 witness: a malformed identifier is answered with 400 by both
endpoints, and a well-formed identifier over an empty store is answered
with 404 by the status query. -/
theorem invalid_objectid_yields_400_witness :
    get_enrollment_status "not-an-objectid" [] = .error ⟨400, "enrollment_id inválido"⟩
    ∧ delete_age_group "not-an-objectid" [] = .error ⟨400, "group_id inválido"⟩
    ∧ (objectIdValid "0123456789abcdef01234567" = true
        ∧ ([] : List (String × EnrollmentDoc)).find?
            (fun p => p.1 == "0123456789abcdef01234567") = none) :=
  ⟨invalid_objectid_yields_400.1 "not-an-objectid" [] (by decide),
   invalid_objectid_yields_400.2.1 "not-an-objectid" [] (by decide),
   invalid_objectid_yields_400.2.2.1 "0123456789abcdef01234567" [] ⟨404, "Inscrição não encontrada"⟩
     rfl rfl⟩

/-- C5 failing input: the intake service only checks `name is None` and
has no blank-after-trimming check, so a payload whose name is the blank
string (trimmed, it stays empty) with a valid CPF and a covered age is
accepted and queued (HTTP 201) instead of failing with 400, which
contradicts the repository's own test
`test_create_enrollment_blank_name`. -/
theorem blank_name_accepted_by_intake :
    ("" : String).data.all Char.isWhitespace = true
    ∧ (request_enrollment ⟨true⟩ "0123456789abcdef01234567"
          [⟨"0123456789abcdef01234500", "Adult", 18, 60⟩]
          ⟨some "", some (.pint 25), some "09702414458"⟩ ⟨[], []⟩).1
        = .ok ⟨"0123456789abcdef01234567", "queued"⟩ :=
  ⟨by decide, rfl⟩

lemma request_enrollment_cases (env : IntakeEnv) (newId : String)
    (groups : List AgeGroup) (payload : EnrollPayload) (st : IntakeState) :
    (request_enrollment env newId groups payload st).2 = st
    ∨ (∃ name age cpf,
        payload = ⟨some name, some (.pint age), some cpf⟩
        ∧ ((env.enqueueOk = true
            ∧ request_enrollment env newId groups payload st
              = (.ok ⟨newId, "queued"⟩,
                 ⟨st.enrollments
                    ++ [(newId, ⟨name, age, normalize_cpf cpf, some .queued, none, none⟩)],
                  st.queue ++ [⟨newId, name, age, normalize_cpf cpf⟩]⟩))
          ∨ (env.enqueueOk = false
            ∧ request_enrollment env newId groups payload st
              = (.error ⟨500, "Erro ao enfileirar a solicitação"⟩,
                 ⟨updateFirst newId
                    (fun d => { d with status := some .failed, reason := some "enqueue_error" })
                    (st.enrollments
                      ++ [(newId, ⟨name, age, normalize_cpf cpf, some .queued, none, none⟩)]),
                  st.queue⟩)))) := by
  obtain ⟨pn, pa, pc⟩ := payload
  cases pn with
  | none => left; rfl
  | some name =>
    cases pa with
    | none => left; rfl
    | some ageV =>
      cases pc with
      | none => left; rfl
      | some cpf =>
        cases ageV with
        | pstr s => left; rfl
        | pother => left; rfl
        | pint age =>
          by_cases hcpf : is_valid_cpf (normalize_cpf cpf) = true
          · by_cases hgrp : groups.any
                (fun g => decide (g.min_age ≤ age) && decide (g.max_age ≥ age)) = true
            · right
              refine ⟨name, age, cpf, rfl, ?_⟩
              cases henq : env.enqueueOk with
              | true =>
                  left
                  refine ⟨rfl, ?_⟩
                  simp only [request_enrollment]
                  rw [if_neg (by simp [hcpf]), if_pos hgrp, if_pos henq]
              | false =>
                  right
                  refine ⟨rfl, ?_⟩
                  simp only [request_enrollment]
                  rw [if_neg (by simp [hcpf]), if_pos hgrp, if_neg (by simp [henq])]
            · left
              simp only [request_enrollment]
              rw [if_neg (by simp [hcpf]), if_neg hgrp]
          · left
            simp only [request_enrollment]
            rw [if_pos (by simp [hcpf])]

/-- C6: if the queue publish fails after the enrollment was persisted
with status `queued`, `request_enrollment` marks that record as
`failed` with reason `enqueue_error` and fails with 500; any record the
call leaves visible as `queued` has its queue message published, and on
a successful publish the call returns `{enrollment_id, status:
"queued"}`. -/
theorem enqueue_failure_recovery :
    ∀ env newId groups payload st,
      st.enrollments.find? (fun p => p.1 == newId) = none →
      ((env.enqueueOk = false →
          ∀ d, ((request_enrollment env newId groups payload st).2.enrollments.find?
                  (fun p => p.1 == newId)) = some (newId, d) →
            (request_enrollment env newId groups payload st).1
                = .error ⟨500, "Erro ao enfileirar a solicitação"⟩
              ∧ d.status = some .failed ∧ d.reason = some "enqueue_error")
        ∧ (∀ d, ((request_enrollment env newId groups payload st).2.enrollments.find?
                  (fun p => p.1 == newId)) = some (newId, d) →
            d.status = some .queued →
            (request_enrollment env newId groups payload st).1 = .ok ⟨newId, "queued"⟩
              ∧ (⟨newId, d.name, d.age, d.cpf⟩ : QueueMsg)
                  ∈ (request_enrollment env newId groups payload st).2.queue)
        ∧ (env.enqueueOk = true →
            ∀ d, ((request_enrollment env newId groups payload st).2.enrollments.find?
                  (fun p => p.1 == newId)) = some (newId, d) →
              (request_enrollment env newId groups payload st).1 = .ok ⟨newId, "queued"⟩)) := by
  intro env newId groups payload st hfresh
  rcases request_enrollment_cases env newId groups payload st with hsame
    | ⟨name, age, cpf, hpay, hout⟩
  · refine ⟨?_, ?_, ?_⟩
    · intro _ d hfind
      rw [hsame, hfresh] at hfind
      exact absurd hfind (by simp)
    · intro d hfind
      rw [hsame, hfresh] at hfind
      exact absurd hfind (by simp)
    · intro _ d hfind
      rw [hsame, hfresh] at hfind
      exact absurd hfind (by simp)
  · rcases hout with ⟨henq, heq⟩ | ⟨henq, heq⟩
    · have hfind2 : (request_enrollment env newId groups payload st).2.enrollments.find?
          (fun p => p.1 == newId)
          = some (newId, ⟨name, age, normalize_cpf cpf, some .queued, none, none⟩) := by
        rw [heq]
        exact find?_append_self _ _ _ hfresh
      refine ⟨?_, ?_, ?_⟩
      · intro hfalse
        rw [henq] at hfalse
        exact absurd hfalse (by simp)
      · intro d hfind _
        rw [hfind2] at hfind
        simp only [Option.some.injEq, Prod.mk.injEq] at hfind
        have hd := hfind.2
        constructor
        · rw [heq]
        · rw [heq, ← hd]
          simp
      · intro _ d _
        rw [heq]
    · have hfind2 : (request_enrollment env newId groups payload st).2.enrollments.find?
          (fun p => p.1 == newId)
          = some (newId, ⟨name, age, normalize_cpf cpf, some .failed,
                    some "enqueue_error", none⟩) := by
        rw [heq]
        simp only
        rw [updateFirst_append_of_none _ _ _ _ hfresh]
        exact find?_append_self _ _ _ hfresh
      refine ⟨?_, ?_, ?_⟩
      · intro _ d hfind
        rw [hfind2] at hfind
        simp only [Option.some.injEq, Prod.mk.injEq] at hfind
        have hd := hfind.2
        refine ⟨by rw [heq], ?_, ?_⟩
        · rw [← hd]
        · rw [← hd]
      · intro d hfind hq
        rw [hfind2] at hfind
        simp only [Option.some.injEq, Prod.mk.injEq] at hfind
        rw [← hfind.2] at hq
        exact absurd hq (by simp)
      · intro htrue
        rw [henq] at htrue
        exact absurd htrue (by simp)

/-- C6 witness: with a failing queue publish, a valid payload yields the
500 `EnqueueError` and the persisted record is `failed` with reason
`enqueue_error`. -/
theorem enqueue_failure_recovery_witness :
    (request_enrollment ⟨false⟩ "0123456789abcdef01234567"
        [⟨"0123456789abcdef01234500", "Adult", 18, 60⟩]
        ⟨some "Ana", some (.pint 25), some "09702414458"⟩ ⟨[], []⟩).1
      = .error ⟨500, "Erro ao enfileirar a solicitação"⟩
    ∧ (⟨"Ana", 25, "09702414458", some .failed, some "enqueue_error", none⟩
        : EnrollmentDoc).status = some .failed
    ∧ (⟨"Ana", 25, "09702414458", some .failed, some "enqueue_error", none⟩
        : EnrollmentDoc).reason = some "enqueue_error" :=
  (enqueue_failure_recovery ⟨false⟩ "0123456789abcdef01234567"
      [⟨"0123456789abcdef01234500", "Adult", 18, 60⟩]
      ⟨some "Ana", some (.pint 25), some "09702414458"⟩ ⟨[], []⟩ rfl).1 rfl
    ⟨"Ana", 25, "09702414458", some .failed, some "enqueue_error", none⟩ rfl

/-- A parsed queue message as the worker reads it (`json.loads` then
`data.get(...)`; any field can be absent). -/
structure ParsedMsg where
  enrollment_id : Option String
  name : Option String
  age : Option Int
  cpf : Option String
  deriving DecidableEq, Repr

/-- A document of the `users` collection, created by `_persist_user`
(timestamp not modelled; `name` and `age` are whatever the message
held). -/
structure MemberDoc where
  name : Option String
  age : Option Int
  cpf : String
  deriving DecidableEq, Repr

/-- The stores the worker touches: the `enrollments` and `users`
collections and the Redis dead-letter list. -/
structure WorkerState where
  enrollments : List (String × EnrollmentDoc)
  users : List MemberDoc
  dlq : List String
  deriving DecidableEq, Repr

/-- Success flags for the worker's fallible external calls; a `false`
flag makes the corresponding call raise, which `process_message`
handles in its `except` clause (`markFailedOk` and `dlqOk` govern the
two individually-swallowed recovery steps of
`_handle_processing_error`). -/
structure WorkerEnv where
  findOk : Bool
  updProcessingOk : Bool
  updRejectOk : Bool
  insertUserOk : Bool
  updCompletedOk : Bool
  markFailedOk : Bool
  dlqOk : Bool
  deriving DecidableEq, Repr

/-- The worker's age-group `find_one` query for the message's `age`; in
BSON ordering a number is never `≤` or `≥` a missing (`None`) value, so
an absent age matches no group. -/
def groupContains (g : AgeGroup) : Option Int → Bool
  | none => false
  | some a => decide (g.min_age ≤ a) && decide (g.max_age ≥ a)

/-- `_update_enrollment_status` with no extra fields. -/
def setStatusW (eid : String) (s : EStatus) (st : WorkerState) : WorkerState :=
  { st with enrollments :=
      updateFirst eid (fun d => { d with status := some s }) st.enrollments }

/-- `_update_enrollment_status` with a `reason` extra field. -/
def setStatusReasonW (eid : String) (s : EStatus) (r : String) (st : WorkerState) :
    WorkerState :=
  let upd : EnrollmentDoc → EnrollmentDoc := fun d =>
    { d with status := some s, reason := some r }
  { st with enrollments := updateFirst eid upd st.enrollments }

/-- `_update_enrollment_status` with the completion extras (`user_id`;
`processed_at` is a timestamp and not modelled). -/
def setCompletedW (eid : String) (uid : Nat) (st : WorkerState) : WorkerState :=
  let upd : EnrollmentDoc → EnrollmentDoc := fun d =>
    { d with status := some .completed, user_id := some uid }
  { st with enrollments := updateFirst eid upd st.enrollments }

/-- `find_one` on the `enrollments` collection. -/
def findEnrollment (st : WorkerState) (eid : String) : Option EnrollmentDoc :=
  (st.enrollments.find? (fun p => p.1 == eid)).map (fun p => p.2)

/-- The body of `process_message`'s `try` block
(backend/worker/consumer_enrollment.py): `Except.error` is an exception
escaping to the `except` clause, carrying the resolved `enrollment_id`
(if any) and the state mutated so far. `parsed` is `none` when
`json.loads` raises; an `enrollment_id` that is the empty string is
falsy in Python, so it drops the message like an absent one; an invalid
`ObjectId` string makes the `ObjectId` constructor raise; a `false`
environment flag makes the corresponding database call raise; a missing
`cpf` makes `re.sub` inside `normalize_cpf` raise `TypeError`. -/
def processCore (env : WorkerEnv) (reg : List AgeGroup) (parsed : Option ParsedMsg)
    (st : WorkerState) : Except (Option String × WorkerState) WorkerState :=
  match parsed with
  | none => .error (none, st)
  | some d =>
    match d.enrollment_id with
    | none => .ok st
    | some eid =>
      if eid = "" then .ok st
      else if ¬ (objectIdValid eid && env.findOk) = true then .error (some eid, st)
      else
        match findEnrollment st eid with
        | none => .ok st
        | some enr =>
          if ¬ (enr.status = some .queued ∨ enr.status = none) then .ok st
          else if ¬ env.updProcessingOk = true then .error (some eid, st)
          else
            let st1 := setStatusW eid .processing st
            match d.cpf with
            | none => .error (some eid, st1)
            | some cpf =>
              if ¬ is_valid_cpf (normalize_cpf cpf) = true then
                if env.updRejectOk then
                  .ok (setStatusReasonW eid .rejected "cpf_invalido" st1)
                else .error (some eid, st1)
              else if ¬ reg.any (fun g => groupContains g d.age) = true then
                if env.updRejectOk then
                  .ok (setStatusReasonW eid .rejected "faixa_nao_encontrada" st1)
                else .error (some eid, st1)
              else if ¬ env.insertUserOk = true then .error (some eid, st1)
              else
                let uid := st1.users.length
                let st2 := { st1 with
                  users := st1.users ++ [⟨d.name, d.age, normalize_cpf cpf⟩] }
                if ¬ env.updCompletedOk = true then .error (some eid, st2)
                else .ok (setCompletedW eid uid st2)

/-- The first recovery step of `_handle_processing_error`: best-effort
mark the enrollment `failed` with reason `processing_error` — only when
an id was resolved (`if enrollment_id:` — the empty string is falsy),
and swallowing any exception (the `ObjectId` constructor raising again
on a malformed id, or the update call failing); matching no document is
a no-op of `update_one` itself. -/
def markFailedStep (env : WorkerEnv) (eid? : Option String) (st : WorkerState) :
    WorkerState :=
  match eid? with
  | none => st
  | some eid =>
      if eid ≠ "" ∧ objectIdValid eid = true ∧ env.markFailedOk = true then
        setStatusReasonW eid .failed "processing_error" st
      else st

/-- `_handle_processing_error`: the mark-failed step, then a best-effort
push of the original raw message onto the dead-letter list, each failure
swallowed separately. -/
def handle_processing_error (env : WorkerEnv) (eid? : Option String) (raw : String)
    (st : WorkerState) : WorkerState :=
  let st1 := markFailedStep env eid? st
  if env.dlqOk = true then { st1 with dlq := st1.dlq ++ [raw] } else st1

/-- `process_message`: run the `try` block; on an exception run the
recovery of `_handle_processing_error`; always returns (the ≥2-second
throttle of the `finally` clause is wall-clock only and not
modelled). -/
def process_message (env : WorkerEnv) (reg : List AgeGroup) (raw : String)
    (parsed : Option ParsedMsg) (st : WorkerState) : WorkerState :=
  match processCore env reg parsed st with
  | .ok stc => stc
  | .error (eid?, stc) => handle_processing_error env eid? raw stc

lemma markFailedStep_users_dlq (env : WorkerEnv) (eid? : Option String)
    (st : WorkerState) :
    (markFailedStep env eid? st).users = st.users
    ∧ (markFailedStep env eid? st).dlq = st.dlq := by
  cases eid? with
  | none => exact ⟨rfl, rfl⟩
  | some eid =>
      by_cases hc : (eid ≠ "" ∧ objectIdValid eid = true ∧ env.markFailedOk = true)
      · have he : markFailedStep env (some eid) st
            = setStatusReasonW eid .failed "processing_error" st := by
          simp only [markFailedStep, if_pos hc]
        rw [he]
        exact ⟨rfl, rfl⟩
      · have he : markFailedStep env (some eid) st = st := by
          simp only [markFailedStep, if_neg hc]
        rw [he]
        exact ⟨rfl, rfl⟩

lemma handle_users (env : WorkerEnv) (eid? : Option String) (raw : String)
    (st : WorkerState) :
    (handle_processing_error env eid? raw st).users = st.users := by
  simp only [handle_processing_error]
  by_cases h : env.dlqOk = true
  · rw [if_pos h]
    exact (markFailedStep_users_dlq env eid? st).1
  · rw [if_neg h]
    exact (markFailedStep_users_dlq env eid? st).1

lemma handle_dlq (env : WorkerEnv) (eid? : Option String) (raw : String)
    (st : WorkerState) :
    (handle_processing_error env eid? raw st).dlq
      = if env.dlqOk = true then st.dlq ++ [raw] else st.dlq := by
  simp only [handle_processing_error]
  by_cases h : env.dlqOk = true
  · rw [if_pos h, if_pos h]
    have := (markFailedStep_users_dlq env eid? st).2
    simp only at this ⊢
    rw [this]
  · rw [if_neg h, if_neg h]
    exact (markFailedStep_users_dlq env eid? st).2

set_option maxHeartbeats 1000000 in
lemma processCore_shape (env : WorkerEnv) (reg : List AgeGroup)
    (parsed : Option ParsedMsg) (st : WorkerState) :
    (∀ stc, processCore env reg parsed st = .ok stc →
        stc.dlq = st.dlq ∧ stc.users.length ≤ st.users.length + 1)
    ∧ (∀ eid? stc, processCore env reg parsed st = .error (eid?, stc) →
        stc.dlq = st.dlq ∧ stc.users.length ≤ st.users.length + 1) := by
  constructor
  · intro stc h
    simp only [processCore] at h
    repeat' split at h
    all_goals first
      | exact Except.noConfusion h
      | (injection h with h1
         subst h1
         exact ⟨rfl, by
           simp [setStatusW, setStatusReasonW, setCompletedW, List.length_append]
           try omega⟩)
  · intro eid? stc h
    simp only [processCore] at h
    repeat' split at h
    all_goals first
      | exact Except.noConfusion h
      | (injection h with h1
         injection h1 with h2 h3
         subst h3
         exact ⟨rfl, by
           simp [setStatusW, setStatusReasonW, setCompletedW, List.length_append]
           try omega⟩)

lemma find?_updateFirst (eid : String) (f : EnrollmentDoc → EnrollmentDoc)
    (l : List (String × EnrollmentDoc)) :
    (updateFirst eid f l).find? (fun p => p.1 == eid)
      = (l.find? (fun p => p.1 == eid)).map (fun p => (p.1, f p.2)) := by
  induction l with
  | nil => rfl
  | cons a l ih =>
      cases hpa : (a.1 == eid) with
      | true =>
          have h1 : updateFirst eid f (a :: l) = (a.1, f a.2) :: l := by
            unfold updateFirst
            rw [if_pos hpa]
          rw [h1]
          simp [List.find?_cons, hpa]
      | false =>
          have h1 : updateFirst eid f (a :: l) = a :: updateFirst eid f l := by
            unfold updateFirst
            rw [if_neg (by simp [hpa])]
            cases l with
            | nil => rfl
            | cons b bs => rfl
          rw [h1]
          simp [List.find?_cons, hpa, ih]

lemma findEnrollment_setStatusReasonW (eid : String) (s : EStatus) (r : String)
    (st : WorkerState) :
    findEnrollment (setStatusReasonW eid s r st) eid
      = (findEnrollment st eid).map
          (fun d => { d with status := some s, reason := some r }) := by
  unfold findEnrollment setStatusReasonW
  simp only
  rw [find?_updateFirst]
  cases st.enrollments.find? (fun p => p.1 == eid) with
  | none => rfl
  | some p => rfl

/-- C2: for an enrollment whose stored status is neither `queued` nor
unset, delivering its queue message changes no state — the worker skips
processing entirely (provided the message parses, carries that id, and
the lookup call itself succeeds); consequently a second delivery of a
message whose first delivery moved the record past `queued` is a no-op,
and any single delivery creates at most one Member record, so exactly
one Member exists across both deliveries when the first completed. -/
theorem worker_duplicate_delivery_noop :
    (∀ env reg raw d eid st enr s0,
        d.enrollment_id = some eid → eid ≠ "" →
        objectIdValid eid = true → env.findOk = true →
        findEnrollment st eid = some enr → enr.status = some s0 → s0 ≠ .queued →
        process_message env reg raw (some d) st = st)
    ∧ (∀ env reg raw parsed st,
        (process_message env reg raw parsed st).users.length
          ≤ st.users.length + 1) := by
  constructor
  · intro env reg raw d eid st enr s0 hid hne hv hf hfind hst hs0
    have hcore : processCore env reg (some d) st = .ok st := by
      simp only [processCore, hid]
      rw [if_neg hne, if_neg (by simp [hv, hf]), hfind]
      simp only
      rw [if_pos (by simp [hst, hs0])]
    simp [process_message, hcore]
  · intro env reg raw parsed st
    cases hc : processCore env reg parsed st with
    | ok stc =>
        have hpm : process_message env reg raw parsed st = stc := by
          simp [process_message, hc]
        rw [hpm]
        exact ((processCore_shape env reg parsed st).1 stc hc).2
    | error e =>
        obtain ⟨eid?, stc⟩ := e
        have hpm : process_message env reg raw parsed st
            = handle_processing_error env eid? raw stc := by
          simp [process_message, hc]
        rw [hpm, handle_users]
        exact ((processCore_shape env reg parsed st).2 eid? stc hc).2

/-- C2 witness: delivering a message for an already-completed enrollment
leaves the whole state unchanged. -/
theorem worker_duplicate_delivery_noop_witness :
    process_message ⟨true, true, true, true, true, true, true⟩ [] "m"
        (some ⟨some "0123456789abcdef01234567", some "A", some 25,
               some "09702414458"⟩)
        ⟨[("0123456789abcdef01234567",
           ⟨"A", 25, "09702414458", some .completed, none, some 0⟩)],
         [⟨some "A", some 25, "09702414458"⟩], []⟩
      = ⟨[("0123456789abcdef01234567",
           ⟨"A", 25, "09702414458", some .completed, none, some 0⟩)],
         [⟨some "A", some 25, "09702414458"⟩], []⟩ :=
  worker_duplicate_delivery_noop.1 ⟨true, true, true, true, true, true, true⟩ [] "m"
    ⟨some "0123456789abcdef01234567", some "A", some 25, some "09702414458"⟩
    "0123456789abcdef01234567"
    ⟨[("0123456789abcdef01234567",
       ⟨"A", 25, "09702414458", some .completed, none, some 0⟩)],
     [⟨some "A", some 25, "09702414458"⟩], []⟩
    ⟨"A", 25, "09702414458", some .completed, none, some 0⟩ .completed
    rfl (by decide) (by decide) rfl rfl rfl (by decide)

/-- C3: a dequeued message reaches the dead-letter queue exactly when
its processing raises an unexpected exception — when the `try` body
returns normally (all deliberate rejections and drops do) the state is
its result and the DLQ is untouched; on an exception the original raw
message is appended verbatim (when the DLQ push itself succeeds, and
not at all when it fails — the failure is swallowed), the enrollment,
when an id was resolved and the recovery update succeeds, is marked
`failed` with reason `processing_error`, and `process_message` always
returns instead of propagating. -/
theorem dlq_iff_unexpected_exception :
    ∀ env reg raw parsed st,
      ((∀ stc, processCore env reg parsed st = .ok stc →
          process_message env reg raw parsed st = stc
          ∧ (process_message env reg raw parsed st).dlq = st.dlq)
      ∧ (env.dlqOk = true →
          ∀ e, processCore env reg parsed st = .error e →
            (process_message env reg raw parsed st).dlq = st.dlq ++ [raw])
      ∧ (env.dlqOk = false →
          ∀ e, processCore env reg parsed st = .error e →
            (process_message env reg raw parsed st).dlq = st.dlq)
      ∧ (∀ eid stc, processCore env reg parsed st = .error (some eid, stc) →
          eid ≠ "" → objectIdValid eid = true → env.markFailedOk = true →
          ∀ d0, findEnrollment stc eid = some d0 →
            findEnrollment (process_message env reg raw parsed st) eid
              = some { d0 with status := some .failed, reason := some "processing_error" })) := by
  intro env reg raw parsed st
  refine ⟨?_, ?_, ?_, ?_⟩
  · intro stc h
    have hpm : process_message env reg raw parsed st = stc := by
      simp [process_message, h]
    refine ⟨hpm, ?_⟩
    rw [hpm]
    exact ((processCore_shape env reg parsed st).1 stc h).1
  · intro hdlq e h
    obtain ⟨eid?, stc⟩ := e
    have hpm : process_message env reg raw parsed st
        = handle_processing_error env eid? raw stc := by
      simp [process_message, h]
    rw [hpm, handle_dlq, if_pos hdlq,
      ((processCore_shape env reg parsed st).2 eid? stc h).1]
  · intro hdlq e h
    obtain ⟨eid?, stc⟩ := e
    have hpm : process_message env reg raw parsed st
        = handle_processing_error env eid? raw stc := by
      simp [process_message, h]
    rw [hpm, handle_dlq, if_neg (by simp [hdlq]),
      ((processCore_shape env reg parsed st).2 eid? stc h).1]
  · intro eid stc h hne hv hmk d0 hd0
    have hpm : process_message env reg raw parsed st
        = handle_processing_error env (some eid) raw stc := by
      simp [process_message, h]
    have hfe : findEnrollment (handle_processing_error env (some eid) raw stc) eid
        = findEnrollment (markFailedStep env (some eid) stc) eid := by
      simp only [handle_processing_error]
      split
      · rfl
      · rfl
    have hmark : markFailedStep env (some eid) stc
        = setStatusReasonW eid .failed "processing_error" stc := by
      simp only [markFailedStep]
      exact if_pos ⟨hne, hv, hmk⟩
    rw [hpm, hfe, hmark, findEnrollment_setStatusReasonW, hd0]
    rfl

/-- C3 witness: a message whose JSON parse fails is pushed verbatim to
the dead-letter queue. -/
theorem dlq_iff_unexpected_exception_witness :
    (process_message ⟨true, true, true, true, true, true, true⟩ [] "notjson" none
        ⟨[], [], []⟩).dlq = ([] : List String) ++ ["notjson"] :=
  (dlq_iff_unexpected_exception ⟨true, true, true, true, true, true, true⟩ []
      "notjson" none ⟨[], [], []⟩).2.1 rfl (none, ⟨[], [], []⟩) rfl

/-- C7 (amended): past the idempotency guard (and with the involved
database calls succeeding), an invalid CPF transitions the enrollment to
`rejected` with stored reason `cpf_invalido` and processing stops with
no exception, and a valid CPF whose age no registered group contains
transitions it to `rejected` with stored reason `faixa_nao_encontrada`;
in both cases no Member record is created and nothing reaches the
dead-letter queue. (The stored reason strings are the code's
`cpf_invalido` and `faixa_nao_encontrada`, not the `cpf_invalid` and
`group_not_found` stated by the claim.) -/
theorem worker_rejection_paths :
    ∀ env reg raw d eid st enr cpf,
      d.enrollment_id = some eid → eid ≠ "" →
      objectIdValid eid = true → env.findOk = true →
      findEnrollment st eid = some enr →
      (enr.status = some .queued ∨ enr.status = none) →
      env.updProcessingOk = true → env.updRejectOk = true →
      d.cpf = some cpf →
      ((is_valid_cpf (normalize_cpf cpf) = false →
          process_message env reg raw (some d) st
            = setStatusReasonW eid .rejected "cpf_invalido"
                (setStatusW eid .processing st)
          ∧ (process_message env reg raw (some d) st).users = st.users
          ∧ (process_message env reg raw (some d) st).dlq = st.dlq)
        ∧ (is_valid_cpf (normalize_cpf cpf) = true →
            reg.any (fun g => groupContains g d.age) = false →
          process_message env reg raw (some d) st
            = setStatusReasonW eid .rejected "faixa_nao_encontrada"
                (setStatusW eid .processing st)
          ∧ (process_message env reg raw (some d) st).users = st.users
          ∧ (process_message env reg raw (some d) st).dlq = st.dlq)) := by
  intro env reg raw d eid st enr cpf hid hne hv hf hfind hq hupd hrej hcpf
  constructor
  · intro hbad
    have hcore : processCore env reg (some d) st
        = .ok (setStatusReasonW eid .rejected "cpf_invalido"
                (setStatusW eid .processing st)) := by
      simp only [processCore, hid, hcpf]
      rw [if_neg hne, if_neg (by simp [hv, hf]), hfind]
      simp only
      rw [if_neg (not_not_intro hq), if_neg (by simp [hupd]),
        if_pos (by simp [hbad]), if_pos hrej]
    have hpm : process_message env reg raw (some d) st
        = setStatusReasonW eid .rejected "cpf_invalido"
            (setStatusW eid .processing st) := by
      simp [process_message, hcore]
    exact ⟨hpm, by rw [hpm]; rfl, by rw [hpm]; rfl⟩
  · intro hgood hany
    have hcore : processCore env reg (some d) st
        = .ok (setStatusReasonW eid .rejected "faixa_nao_encontrada"
                (setStatusW eid .processing st)) := by
      simp only [processCore, hid, hcpf]
      rw [if_neg hne, if_neg (by simp [hv, hf]), hfind]
      simp only
      rw [if_neg (not_not_intro hq), if_neg (by simp [hupd]),
        if_neg (by simp [hgood]), if_pos (by simp [hany]), if_pos hrej]
    have hpm : process_message env reg raw (some d) st
        = setStatusReasonW eid .rejected "faixa_nao_encontrada"
            (setStatusW eid .processing st) := by
      simp [process_message, hcore]
    exact ⟨hpm, by rw [hpm]; rfl, by rw [hpm]; rfl⟩

/-- C7 witness: a queued enrollment whose message carries an invalid CPF
ends `rejected` with the stored reason `cpf_invalido`. -/
theorem worker_rejection_paths_witness :
    process_message ⟨true, true, true, true, true, true, true⟩ [] "raw"
        (some ⟨some "0123456789abcdef01234567", some "X", some 25, some "123"⟩)
        ⟨[("0123456789abcdef01234567",
           ⟨"X", 25, "123", some .queued, none, none⟩)], [], []⟩
      = setStatusReasonW "0123456789abcdef01234567" .rejected "cpf_invalido"
          (setStatusW "0123456789abcdef01234567" .processing
            ⟨[("0123456789abcdef01234567",
               ⟨"X", 25, "123", some .queued, none, none⟩)], [], []⟩) :=
  ((worker_rejection_paths ⟨true, true, true, true, true, true, true⟩ [] "raw"
      ⟨some "0123456789abcdef01234567", some "X", some 25, some "123"⟩
      "0123456789abcdef01234567"
      ⟨[("0123456789abcdef01234567",
         ⟨"X", 25, "123", some .queued, none, none⟩)], [], []⟩
      ⟨"X", 25, "123", some .queued, none, none⟩ "123"
      rfl (by decide) (by decide) rfl rfl (Or.inl rfl) rfl rfl rfl).1
    (by decide)).1

/-- C7 counterexample: at a concrete message with an invalid CPF the
stored rejection reason is `cpf_invalido`, not the `cpf_invalid` the
claim states. -/
theorem worker_reject_reason_cex :
    (findEnrollment
        (process_message ⟨true, true, true, true, true, true, true⟩ [] "raw"
          (some ⟨some "0123456789abcdef01234567", some "X", some 25, some "123"⟩)
          ⟨[("0123456789abcdef01234567",
             ⟨"X", 25, "123", some .queued, none, none⟩)], [], []⟩)
        "0123456789abcdef01234567").map (fun d => d.reason)
      = some (some "cpf_invalido")
    ∧ ((findEnrollment
        (process_message ⟨true, true, true, true, true, true, true⟩ [] "raw"
          (some ⟨some "0123456789abcdef01234567", some "X", some 25, some "123"⟩)
          ⟨[("0123456789abcdef01234567",
             ⟨"X", 25, "123", some .queued, none, none⟩)], [], []⟩)
        "0123456789abcdef01234567").map (fun d => d.reason)
      ≠ some (some "cpf_invalid")) :=
  ⟨by decide, by decide⟩
